import Mathlib

/-!
# Verification of the typed event registry and dispatch protocol (tauri-specta, src/event.rs)

Shallow embedding of the event machinery in `src/event.rs`:

* `EventCollection` — a per-plugin batch of event ids and logical names
  (source: `EventCollection(BTreeSet<SpectaID>, BTreeSet<&str>)`). The
  `BTreeSet`s are modelled as duplicate-free lists; `setInsert` mirrors
  `BTreeSet::insert`, which returns `false` and leaves the set unchanged
  when the element is already present.
* `EventRegistry` — the process-wide map `BTreeMap<SpectaID, EventRegistryMeta>`,
  modelled as an association list whose `regInsert` overwrites an existing
  key in place (the `BTreeMap` insertion semantics used by `extend`).
* Panics (`panic!` / `.expect`) are modelled as `Except.error` carrying the
  panic message; for `EventCollection.register`, which panics while holding
  `&mut self`, the error additionally carries the collection state at the
  moment of the abort.
* The host framework handle (`tauri::Manager`) is modelled by the data the
  code actually consumes: `try_state::<EventRegistry>()` becomes an
  `Option EventRegistry` argument, and the untyped pub/sub primitives
  (`handle.emit`, `handle.listen_any`, `window.emit`, ...) become function
  parameters. The serde_json codec (an external crate) is likewise passed
  as functions `from_str` / `from_value` over a structured-value type `JValue`.
* Dispatch operations thread the managed registry state explicitly and
  return it alongside their outcome, so that read-only behaviour is a
  stated fact rather than an implicit one.
-/

set_option autoImplicit false

/-- `specta::SpectaID`: a process-wide-unique structural type id. Only its
decidable equality/order is used; modelled as `Nat`. -/
abbrev SpectaID := Nat

/-- `tauri::EventId`, the listener identifier returned by subscribe calls. -/
abbrev EventId := Nat

/-- Modelled from the spec: `PluginName` is defined in the crate root
(`lib.rs`), which is not under `src/`. Per §3 a Plugin Identifier is
"`None` for the host application itself, `Some(name)` for a named plugin". -/
abbrev PluginName := Option String

/-- Modelled from the spec: the Wire-Name Resolver
(`PluginName::apply_as_prefix` in the crate root, not under `src/`),
named after the §4.1 contract `resolve(plugin_identifier, logical_name)`.
For the host application identifier it returns the logical name unchanged;
for a named plugin it returns the plugin name, the reserved separator
(§3 gives the scheme `plugin-identifier:logical-name`), and the logical
name concatenated. The source call site fixes the item type to
`ItemType::Event`, so the command variant is irrelevant here. -/
def PluginName.resolve : PluginName → String → String
  | none, input => input
  | some name, input => name ++ ":" ++ input

/-- `EventRegistryMeta { plugin_name: PluginName }`. -/
structure EventRegistryMeta where
  plugin_name : PluginName
deriving DecidableEq, Repr

/-- `EventRegistryMeta::wrap_with_plugin`: applies the owning plugin's
prefixing to a logical event name (`self.plugin_name.apply_as_prefix(input, ItemType::Event)`). -/
def EventRegistryMeta.wrap_with_plugin (m : EventRegistryMeta) (input : String) : String :=
  PluginName.resolve m.plugin_name input

/-- Modelled from the spec (§6): the host pub/sub primitive is
"name-addressed" — a delivery reaches a listener exactly when the emitted
wire-name equals the wire-name the listener subscribed under. The transport
itself is external to this crate. -/
def deliversTo (emitted listening : String) : Bool :=
  emitted == listening

/-- The static identity an `E: Event` type exposes: `E::SID` (from
`specta::NamedType`) and `E::NAME` (from the `Event` trait). -/
structure EventDescriptor where
  SID : SpectaID
  NAME : String
deriving DecidableEq, Repr

/-- `BTreeSet::insert`: returns whether the element was newly inserted,
together with the resulting set; an already-present element leaves the set
unchanged. The set is modelled as a duplicate-free list (iteration order is
never observed by the embedded code). -/
def setInsert {α : Type} [DecidableEq α] (s : List α) (a : α) : Bool × List α :=
  if a ∈ s then (false, s) else (true, s ++ [a])

/-- `EventCollection(BTreeSet<SpectaID>, BTreeSet<&'static str>)`: field
`sids` is the positional field `.0`, `names` is `.1`. -/
structure EventCollection where
  sids : List SpectaID
  names : List String
deriving DecidableEq, Repr

/-- `EventCollection::register::<E>()`:

    if !self.0.insert(E::SID) { panic!("Event {} registered twice!", E::NAME) }
    if !self.1.insert(E::NAME) { panic!("Another event with name {} is already registered!", E::NAME) }

A panic is an `Except.error` carrying the message and the collection state
at the abort (the `&mut self` mutations performed before the panic persist). -/
def EventCollection.register (c : EventCollection) (E : EventDescriptor) :
    Except (String × EventCollection) EventCollection :=
  let r0 := setInsert c.sids E.SID
  let c0 : EventCollection := { c with sids := r0.2 }
  if !r0.1 then
    .error ("Event " ++ E.NAME ++ " registered twice!", c0)
  else
    let r1 := setInsert c0.names E.NAME
    let c1 : EventCollection := { c0 with names := r1.2 }
    if !r1.1 then
      .error ("Another event with name " ++ E.NAME ++ " is already registered!", c1)
    else
      .ok c1

/-- `EventRegistry(RwLock<BTreeMap<SpectaID, EventRegistryMeta>>)`, modelled
as the map contents (the lock guards access but carries no data). -/
abbrev EventRegistry := List (SpectaID × EventRegistryMeta)

/-- `BTreeMap::insert` semantics: overwrite the value at an existing key in
place, otherwise append the new binding. -/
def regInsert : EventRegistry → SpectaID → EventRegistryMeta → EventRegistry
  | [], k, v => [(k, v)]
  | (k', v') :: rest, k, v =>
    if k' = k then (k, v) :: rest else (k', v') :: regInsert rest k v

/-- `BTreeMap::get` on the registry. -/
def regGet : EventRegistry → SpectaID → Option EventRegistryMeta
  | [], _ => none
  | (k', v') :: rest, k => if k' = k then some v' else regGet rest k

/-- The key set of the registry. -/
def regKeys (r : EventRegistry) : List SpectaID :=
  r.map Prod.fst

/-- `EventRegistry::register_collection`:

    registry.extend(collection.0.into_iter().map(|sid| (sid, EventRegistryMeta { plugin_name })));

`extend` on a `BTreeMap` inserts each pair in turn, overwriting existing
keys. -/
def EventRegistry.register_collection (r : EventRegistry) (collection : EventCollection)
    (plugin_name : PluginName) : EventRegistry :=
  collection.sids.foldl (fun acc sid => regInsert acc sid ⟨plugin_name⟩) r

/-- The `.expect` message when the registry state was never managed. -/
def missingRegistryMsg : String :=
  "EventRegistry not found in Tauri state - Did you forget to call Exporter::with_events?"

/-- The `panic!` message when an event's id is absent from the registry. -/
def eventNotFoundMsg (name : String) : String :=
  "Event " ++ name ++ " not found in registry!"

/-- `get_meta_from_registry(sid, name, handle)`: `handle.try_state::<EventRegistry>()`
is the `Option EventRegistry` argument; the two fatal paths are the
`.expect` on a missing state and the `panic!` on a missing entry. -/
def get_meta_from_registry (sid : SpectaID) (name : String)
    (state : Option EventRegistry) : Except String EventRegistryMeta :=
  match state with
  | none => .error missingRegistryMsg
  | some registry =>
    match regGet registry sid with
    | some meta => .ok meta
    | none => .error (eventNotFoundMsg name)

/-- The raw delivery handed to a listener by the host primitive:
`event.id()` and `event.payload()` (a raw string). -/
structure RawEvent where
  id : EventId
  payload : String

/-- `TypedEvent<T> { id: EventId, payload: T }`. -/
structure TypedEvent (T : Type) where
  id : EventId
  payload : T

/-- The structured-data codec's value type (`serde_json::Value`), of which
the embedded code only ever names `Value::Null`; the other constructors
stand for arbitrary non-null structured data. -/
inductive JValue where
  | null
  | str (s : String)
  | num (n : Int)
deriving DecidableEq, Repr

/-- `make_handler!($handler)`: the adapter closure installed on the raw
primitive.

    let value: serde_json::Value = serde_json::from_str(event.payload()).ok().unwrap_or(serde_json::Value::Null);
    $handler(TypedEvent { id: event.id(), payload: serde_json::from_value(value).expect("Failed to deserialize event payload") });

`from_str` (fallible raw→structured parse, its error dropped by `.ok()`)
and `from_value` (fallible structured→typed conversion) are the external
serde_json functions; the `.expect` is the fatal path. -/
def make_handler {α β : Type} (from_value : JValue → Except String α)
    (handler : TypedEvent α → β) (from_str : String → Option JValue)
    (event : RawEvent) : Except String β :=
  let value : JValue := (from_str event.payload).getD JValue.null
  match from_value value with
  | .error _ => .error "Failed to deserialize event payload"
  | .ok payload => .ok (handler { id := event.id, payload := payload })

/-- `Event::emit_all(self, handle)`: resolves the meta (fatal paths come
from `get_meta_from_registry`), then hands the wire-name and payload to
`handle.emit`, whose `tauri::Result` is returned to the caller. The managed
state is threaded through and returned (the code only reads it). -/
def Event.emit_all {α ε : Type} (E : EventDescriptor) (self : α)
    (handleEmit : String → α → Except ε Unit)
    (state : Option EventRegistry) :
    Except String (Except ε Unit) × Option EventRegistry :=
  match get_meta_from_registry E.SID E.NAME state with
  | .error msg => (.error msg, state)
  | .ok meta => (.ok (handleEmit (meta.wrap_with_plugin E.NAME) self), state)

/-- `Event::emit_to(self, handle, label)`: like `emit_all` but targeted at
one label via `handle.emit_to(label, wire_name, self)`. -/
def Event.emit_to {α ε : Type} (E : EventDescriptor) (self : α) (label : String)
    (handleEmitTo : String → String → α → Except ε Unit)
    (state : Option EventRegistry) :
    Except String (Except ε Unit) × Option EventRegistry :=
  match get_meta_from_registry E.SID E.NAME state with
  | .error msg => (.error msg, state)
  | .ok meta => (.ok (handleEmitTo label (meta.wrap_with_plugin E.NAME) self), state)

/-- `Event::emit(self, window)`: window-scoped emit via `window.emit`. -/
def Event.emit {α ε : Type} (E : EventDescriptor) (self : α)
    (windowEmit : String → α → Except ε Unit)
    (state : Option EventRegistry) :
    Except String (Except ε Unit) × Option EventRegistry :=
  match get_meta_from_registry E.SID E.NAME state with
  | .error msg => (.error msg, state)
  | .ok meta => (.ok (windowEmit (meta.wrap_with_plugin E.NAME) self), state)

/-- `Event::listen_any(handle, handler)`: subscribes the adapted handler
under the wire-name via `handle.listen_any`, returning its `EventId`. -/
def Event.listen_any {α β : Type} (E : EventDescriptor)
    (handler : TypedEvent α → β)
    (from_value : JValue → Except String α) (from_str : String → Option JValue)
    (handleListenAny : String → (RawEvent → Except String β) → EventId)
    (state : Option EventRegistry) :
    Except String EventId × Option EventRegistry :=
  match get_meta_from_registry E.SID E.NAME state with
  | .error msg => (.error msg, state)
  | .ok meta =>
    (.ok (handleListenAny (meta.wrap_with_plugin E.NAME)
      (make_handler from_value handler from_str)), state)

/-- `Event::once_any(handle, handler)`: like `listen_any` via
`handle.once_any`, which returns no id. -/
def Event.once_any {α β : Type} (E : EventDescriptor)
    (handler : TypedEvent α → β)
    (from_value : JValue → Except String α) (from_str : String → Option JValue)
    (handleOnceAny : String → (RawEvent → Except String β) → Unit)
    (state : Option EventRegistry) :
    Except String Unit × Option EventRegistry :=
  match get_meta_from_registry E.SID E.NAME state with
  | .error msg => (.error msg, state)
  | .ok meta =>
    (.ok (handleOnceAny (meta.wrap_with_plugin E.NAME)
      (make_handler from_value handler from_str)), state)

/-- `Event::listen(window, handler)`: window-scoped `window.listen`. -/
def Event.listen {α β : Type} (E : EventDescriptor)
    (handler : TypedEvent α → β)
    (from_value : JValue → Except String α) (from_str : String → Option JValue)
    (windowListen : String → (RawEvent → Except String β) → EventId)
    (state : Option EventRegistry) :
    Except String EventId × Option EventRegistry :=
  match get_meta_from_registry E.SID E.NAME state with
  | .error msg => (.error msg, state)
  | .ok meta =>
    (.ok (windowListen (meta.wrap_with_plugin E.NAME)
      (make_handler from_value handler from_str)), state)

/-- `Event::once(window, handler)`: window-scoped `window.once`. -/
def Event.once {α β : Type} (E : EventDescriptor)
    (handler : TypedEvent α → β)
    (from_value : JValue → Except String α) (from_str : String → Option JValue)
    (windowOnce : String → (RawEvent → Except String β) → Unit)
    (state : Option EventRegistry) :
    Except String Unit × Option EventRegistry :=
  match get_meta_from_registry E.SID E.NAME state with
  | .error msg => (.error msg, state)
  | .ok meta =>
    (.ok (windowOnce (meta.wrap_with_plugin E.NAME)
      (make_handler from_value handler from_str)), state)

/-! ## Helper lemmas -/

theorem regGet_regInsert (r : EventRegistry) (k : SpectaID) (v : EventRegistryMeta)
    (k' : SpectaID) :
    regGet (regInsert r k v) k' = if k' = k then some v else regGet r k' := by
  induction r with
  | nil =>
    by_cases h : k = k'
    · subst h
      simp [regInsert, regGet]
    · simp [regInsert, regGet, h, Ne.symm h]
  | cons hd tl ih =>
    obtain ⟨k0, v0⟩ := hd
    by_cases h0 : k0 = k
    · subst h0
      by_cases h1 : k0 = k'
      · subst h1
        simp [regInsert, regGet]
      · simp [regInsert, regGet, h1, Ne.symm h1]
    · by_cases h1 : k0 = k'
      · subst h1
        simp [regInsert, regGet, h0, Ne.symm h0]
      · simp [regInsert, regGet, h0, h1, ih]

theorem regGet_foldl_insert (l : List SpectaID) (r : EventRegistry) (p : PluginName)
    (sid : SpectaID) :
    regGet (l.foldl (fun acc s => regInsert acc s ⟨p⟩) r) sid
      = if sid ∈ l then some ⟨p⟩ else regGet r sid := by
  induction l generalizing r with
  | nil => simp
  | cons a l ih =>
    rw [List.foldl_cons, ih]
    by_cases hl : sid ∈ l
    · simp [hl]
    · by_cases ha : sid = a <;> simp [hl, ha, regGet_regInsert]

theorem mem_regKeys_regInsert (r : EventRegistry) (k : SpectaID) (v : EventRegistryMeta)
    (x : SpectaID) :
    x ∈ regKeys (regInsert r k v) ↔ x = k ∨ x ∈ regKeys r := by
  induction r with
  | nil => simp [regInsert, regKeys]
  | cons hd tl ih =>
    obtain ⟨k0, v0⟩ := hd
    by_cases h : k0 = k
    · subst h
      simp [regInsert, regKeys]
    · simp only [regInsert, if_neg h, regKeys, List.map_cons, List.mem_cons] at *
      rw [ih]
      tauto

theorem regKeys_subset_foldl (l : List SpectaID) (r : EventRegistry) (p : PluginName) :
    regKeys r ⊆ regKeys (l.foldl (fun acc s => regInsert acc s ⟨p⟩) r) := by
  induction l generalizing r with
  | nil => simp
  | cons a l ih =>
    intro x hx
    rw [List.foldl_cons]
    exact ih (regInsert r a ⟨p⟩) ((mem_regKeys_regInsert r a ⟨p⟩ x).mpr (Or.inr hx))

theorem get_meta_not_found (reg : EventRegistry) (sid : SpectaID) (name : String)
    (h : regGet reg sid = none) :
    get_meta_from_registry sid name (some reg) = .error (eventNotFoundMsg name) := by
  simp [get_meta_from_registry, h]

theorem get_meta_found (reg : EventRegistry) (sid : SpectaID) (name : String)
    (meta : EventRegistryMeta) (h : regGet reg sid = some meta) :
    get_meta_from_registry sid name (some reg) = .ok meta := by
  simp [get_meta_from_registry, h]

theorem missing_ne_eventNotFound (name : String) :
    missingRegistryMsg ≠ eventNotFoundMsg name := by
  intro h
  have hd : missingRegistryMsg.data = (eventNotFoundMsg name).data := congrArg String.data h
  have h1 : missingRegistryMsg.data[5]? = some 'R' := by decide
  have h6 : ("Event ").data.length = 6 := by decide
  have h2 : (eventNotFoundMsg name).data[5]? = some ' ' := by
    show (("Event " ++ name ++ " not found in registry!").data)[5]? = some ' '
    rw [String.data_append, String.data_append]
    rw [List.getElem?_append_left (by rw [List.length_append]; omega)]
    rw [List.getElem?_append_left (by omega)]
    decide
  rw [hd, h2] at h1
  simp at h1

/-! ## Claim theorems -/

/-- C4: the wire-name resolver is a pure function; under the host-application
identifier (`none`) it returns the logical name unchanged, and under a
named-plugin identifier it returns the plugin name, the reserved separator,
and the logical name concatenated — both directly and as exercised through
`EventRegistryMeta.wrap_with_plugin`. -/
theorem wire_name_resolver_spec (n pname : String) (p : PluginName) :
    PluginName.resolve none n = n ∧
    PluginName.resolve (some pname) n = pname ++ ":" ++ n ∧
    EventRegistryMeta.wrap_with_plugin ⟨p⟩ n = PluginName.resolve p n ∧
    EventRegistryMeta.wrap_with_plugin ⟨none⟩ n = n ∧
    EventRegistryMeta.wrap_with_plugin ⟨some pname⟩ n = pname ++ ":" ++ n :=
  ⟨rfl, rfl, rfl, rfl, rfl⟩

theorem resolve_ne_of_plugin_ne (p1 p2 : PluginName) (n : String) (h : p1 ≠ p2) :
    PluginName.resolve p1 n ≠ PluginName.resolve p2 n := by
  have lenNe : ∀ b : String, n ≠ b ++ ":" ++ n := by
    intro b hEq
    have hl := congrArg String.length hEq
    rw [String.length_append, String.length_append] at hl
    have hc : (":" : String).length = 1 := rfl
    omega
  have cancel : ∀ a b : String, a ++ ":" ++ n = b ++ ":" ++ n → a = b := by
    intro a b hEq
    have hd := congrArg String.data hEq
    simp only [String.data_append] at hd
    have h1 := List.append_cancel_right hd
    have h2 := List.append_cancel_right h1
    cases a
    cases b
    simp_all
  match p1, p2 with
  | none, none => exact absurd rfl h
  | none, some b =>
    simpa [PluginName.resolve] using lenNe b
  | some a, none =>
    simpa [PluginName.resolve] using Ne.symm (lenNe a)
  | some a, some b =>
    intro hEq
    exact h (congrArg some (cancel a b hEq))

/-- C5: two distinct plugin identifiers resolving the same logical name
yield distinct wire-names, so the name-addressed transport never delivers
an emission under one to a listener subscribed under the other. -/
theorem cross_plugin_wire_names_distinct (p1 p2 : PluginName) (n : String) (h : p1 ≠ p2) :
    PluginName.resolve p1 n ≠ PluginName.resolve p2 n ∧
    EventRegistryMeta.wrap_with_plugin ⟨p1⟩ n ≠ EventRegistryMeta.wrap_with_plugin ⟨p2⟩ n ∧
    deliversTo (PluginName.resolve p1 n) (PluginName.resolve p2 n) = false := by
  have key := resolve_ne_of_plugin_ne p1 p2 n h
  refine ⟨key, key, ?_⟩
  simpa [deliversTo] using key

/-- C5 witness: the host identifier and the named plugin "demo" sharing the
logical name "update" get distinct wire-names and no cross-delivery. -/
theorem cross_plugin_wire_names_distinct_witness :
    PluginName.resolve none "update" ≠ PluginName.resolve (some "demo") "update" ∧
    deliversTo (PluginName.resolve none "update") (PluginName.resolve (some "demo") "update")
      = false :=
  have h := cross_plugin_wire_names_distinct none (some "demo") "update" (by decide)
  ⟨h.1, h.2.2⟩

/-- C1 counterexample: merging a collection containing id 0 into a registry
that already holds id 0 (owned by plugin "first") does not abort —
`EventRegistry.register_collection` is total and succeeds — and the
previously registered entry is overwritten with the new plugin, so it is
not left intact. -/
theorem register_collection_overwrites :
    EventRegistry.register_collection [(0, ⟨some "first"⟩)] ⟨[0], ["e"]⟩ (some "second")
      = [(0, ⟨some "second"⟩)] ∧
    regGet (EventRegistry.register_collection [(0, ⟨some "first"⟩)] ⟨[0], ["e"]⟩ (some "second")) 0
      ≠ some ⟨some "first"⟩ := by
  refine ⟨rfl, ?_⟩
  decide

/-- C1 (amended): `EventRegistry.register_collection` never fails; it
inserts an entry mapping every id of the collection to the new plugin
identifier, overwriting any previously registered entry for that id (last
merge wins), and leaves entries for ids outside the collection unchanged. -/
theorem register_collection_last_wins (r : EventRegistry) (c : EventCollection)
    (p : PluginName) (sid : SpectaID) :
    regGet (EventRegistry.register_collection r c p) sid
      = if sid ∈ c.sids then some ⟨p⟩ else regGet r sid :=
  regGet_foldl_insert c.sids r p sid

/-- C2: `EventCollection.register` aborts with the duplicate-id panic when
the structural type id was already added to the collection, aborts with the
name-collision panic when the logical name was already added, and otherwise
adds both the id and the name and succeeds. -/
theorem register_cases (c : EventCollection) (E : EventDescriptor) :
    (E.SID ∈ c.sids →
      EventCollection.register c E
        = .error ("Event " ++ E.NAME ++ " registered twice!", c)) ∧
    (E.SID ∉ c.sids → E.NAME ∈ c.names →
      EventCollection.register c E
        = .error ("Another event with name " ++ E.NAME ++ " is already registered!",
            ⟨c.sids ++ [E.SID], c.names⟩)) ∧
    (E.SID ∉ c.sids → E.NAME ∉ c.names →
      EventCollection.register c E = .ok ⟨c.sids ++ [E.SID], c.names ++ [E.NAME]⟩) := by
  obtain ⟨sids, names⟩ := c
  refine ⟨fun h => ?_, fun h1 h2 => ?_, fun h1 h2 => ?_⟩ <;>
    simp [EventCollection.register, setInsert, *]

/-- C2 witness: on a fresh collection registering (id 0, name "a")
succeeds; re-registering the same id aborts; a distinct id with a taken
name aborts. -/
theorem register_cases_witness :
    EventCollection.register ⟨[], []⟩ ⟨0, "a"⟩ = .ok ⟨[0], ["a"]⟩ ∧
    EventCollection.register ⟨[0], ["a"]⟩ ⟨0, "a"⟩
      = .error ("Event " ++ "a" ++ " registered twice!", ⟨[0], ["a"]⟩) ∧
    EventCollection.register ⟨[1], ["a"]⟩ ⟨0, "a"⟩
      = .error ("Another event with name " ++ "a" ++ " is already registered!", ⟨[1, 0], ["a"]⟩) :=
  ⟨(register_cases ⟨[], []⟩ ⟨0, "a"⟩).2.2 (by decide) (by decide),
   (register_cases ⟨[0], ["a"]⟩ ⟨0, "a"⟩).1 (by decide),
   (register_cases ⟨[1], ["a"]⟩ ⟨0, "a"⟩).2.1 (by decide) (by decide)⟩

/-- C9: `EventCollection.register` is not atomic on the name-collision
abort: when the id is new but the name collides, the abort happens after
the id insertion, so the collection state at the abort contains the new id
while its name set was not extended — the aborted collection differs from
the original. -/
theorem register_not_atomic_on_name_collision (c : EventCollection) (E : EventDescriptor)
    (h1 : E.SID ∉ c.sids) (h2 : E.NAME ∈ c.names) :
    EventCollection.register c E
      = .error ("Another event with name " ++ E.NAME ++ " is already registered!",
          ⟨c.sids ++ [E.SID], c.names⟩) ∧
    E.SID ∈ c.sids ++ [E.SID] ∧
    (⟨c.sids ++ [E.SID], c.names⟩ : EventCollection) ≠ c := by
  refine ⟨(register_cases c E).2.1 h1 h2, by simp, ?_⟩
  intro hEq
  have hl := congrArg (fun x => x.sids.length) hEq
  simp at hl

/-- C9 witness: registering (id 7, name "dup") into a collection already
holding the name "dup" aborts with the collection mutated to contain id 7. -/
theorem register_not_atomic_on_name_collision_witness :
    EventCollection.register ⟨[], ["dup"]⟩ ⟨7, "dup"⟩
      = .error ("Another event with name " ++ "dup" ++ " is already registered!",
          ⟨[7], ["dup"]⟩) ∧
    (⟨[7], ["dup"]⟩ : EventCollection) ≠ ⟨[], ["dup"]⟩ :=
  have h := register_not_atomic_on_name_collision ⟨[], ["dup"]⟩ ⟨7, "dup"⟩
    (by decide) (by decide)
  ⟨h.1, h.2.2⟩

/-- C3: every dispatch operation (emit_all, emit_to, emit, listen_any,
listen, once_any, once) invoked on an event type whose structural type id
is absent from the managed registry aborts with the not-found panic, whose
message names the event's logical name. -/
theorem unmerged_dispatch_fatal {α β ε : Type} (reg : EventRegistry) (E : EventDescriptor)
    (self : α) (label : String)
    (handleEmit windowEmit : String → α → Except ε Unit)
    (handleEmitTo : String → String → α → Except ε Unit)
    (handler : TypedEvent α → β)
    (from_value : JValue → Except String α) (from_str : String → Option JValue)
    (handleListenAny windowListen : String → (RawEvent → Except String β) → EventId)
    (handleOnceAny windowOnce : String → (RawEvent → Except String β) → Unit)
    (h : regGet reg E.SID = none) :
    (Event.emit_all E self handleEmit (some reg)).1 = .error (eventNotFoundMsg E.NAME) ∧
    (Event.emit_to E self label handleEmitTo (some reg)).1 = .error (eventNotFoundMsg E.NAME) ∧
    (Event.emit E self windowEmit (some reg)).1 = .error (eventNotFoundMsg E.NAME) ∧
    (Event.listen_any E handler from_value from_str handleListenAny (some reg)).1
      = .error (eventNotFoundMsg E.NAME) ∧
    (Event.listen E handler from_value from_str windowListen (some reg)).1
      = .error (eventNotFoundMsg E.NAME) ∧
    (Event.once_any E handler from_value from_str handleOnceAny (some reg)).1
      = .error (eventNotFoundMsg E.NAME) ∧
    (Event.once E handler from_value from_str windowOnce (some reg)).1
      = .error (eventNotFoundMsg E.NAME) ∧
    eventNotFoundMsg E.NAME = "Event " ++ E.NAME ++ " not found in registry!" := by
  refine ⟨?_, ?_, ?_, ?_, ?_, ?_, ?_, rfl⟩ <;>
    simp [Event.emit_all, Event.emit_to, Event.emit, Event.listen_any, Event.listen,
      Event.once_any, Event.once, get_meta_not_found reg E.SID E.NAME h]

/-- C3 witness: dispatching the event (id 0, name "demo") against a managed
but empty registry aborts every operation with the diagnostic naming
"demo". -/
theorem unmerged_dispatch_fatal_witness :
    (Event.emit_all ⟨0, "demo"⟩ (0 : Nat)
        (fun _ _ => (Except.ok () : Except Unit Unit)) (some [])).1
      = .error (eventNotFoundMsg "demo") ∧
    (Event.listen_any ⟨0, "demo"⟩ (fun (_ : TypedEvent Nat) => ())
        (fun _ => .ok 0) (fun _ => none) (fun _ _ => 0) (some [])).1
      = .error (eventNotFoundMsg "demo") :=
  have h := unmerged_dispatch_fatal [] ⟨0, "demo"⟩ (0 : Nat) ""
    (fun _ _ => (Except.ok () : Except Unit Unit))
    (fun _ _ => (Except.ok () : Except Unit Unit))
    (fun _ _ _ => (Except.ok () : Except Unit Unit))
    (fun (_ : TypedEvent Nat) => ())
    (fun _ => .ok 0) (fun _ => none)
    (fun _ _ => 0) (fun _ _ => 0)
    (fun _ _ => ()) (fun _ _ => ()) rfl
  ⟨h.1, h.2.2.2.1⟩

/-- C6: semantics of the `make_handler!` adapter: a failed raw-to-structured
parse is replaced by the null structured value and handling continues (the
parse failure itself is never the reported error); a failed
structured-to-typed conversion aborts the handler invocation with the fatal
deserialization message; otherwise the caller's handler runs on the
delivery's id and the typed payload. -/
theorem handler_adapter_semantics {α β : Type} (from_value : JValue → Except String α)
    (handler : TypedEvent α → β) (from_str : String → Option JValue)
    (event : RawEvent) (v : JValue) (p : α) (err : String) :
    (from_str event.payload = none → from_value JValue.null = .ok p →
      make_handler from_value handler from_str event = .ok (handler ⟨event.id, p⟩)) ∧
    (from_str event.payload = none → from_value JValue.null = .error err →
      make_handler from_value handler from_str event
        = .error "Failed to deserialize event payload") ∧
    (from_str event.payload = some v → from_value v = .error err →
      make_handler from_value handler from_str event
        = .error "Failed to deserialize event payload") ∧
    (from_str event.payload = some v → from_value v = .ok p →
      make_handler from_value handler from_str event = .ok (handler ⟨event.id, p⟩)) := by
  refine ⟨fun h1 h2 => ?_, fun h1 h2 => ?_, fun h1 h2 => ?_, fun h1 h2 => ?_⟩ <;>
    simp [make_handler, h1, h2]

/-- C6 witness: with a codec reading integers, a delivery whose raw payload
fails to parse degrades to null and then aborts fatally at conversion,
while a parsable delivery invokes the handler on id 10 and payload 3. -/
theorem handler_adapter_semantics_witness :
    make_handler (fun v => match v with | JValue.num n => Except.ok n | _ => Except.error "bad")
        (fun te : TypedEvent Int => te.payload) (fun _ => none) ⟨10, "x"⟩
      = .error "Failed to deserialize event payload" ∧
    make_handler (fun v => match v with | JValue.num n => Except.ok n | _ => Except.error "bad")
        (fun te : TypedEvent Int => te.payload) (fun _ => some (JValue.num 3)) ⟨10, "x"⟩
      = .ok 3 :=
  ⟨(handler_adapter_semantics
      (fun v => match v with | JValue.num n => Except.ok n | _ => Except.error "bad")
      (fun te : TypedEvent Int => te.payload) (fun _ => none) ⟨10, "x"⟩
      JValue.null 3 "bad").2.1 rfl rfl,
   (handler_adapter_semantics
      (fun v => match v with | JValue.num n => Except.ok n | _ => Except.error "bad")
      (fun te : TypedEvent Int => te.payload) (fun _ => some (JValue.num 3)) ⟨10, "x"⟩
      (JValue.num 3) 3 "bad").2.2.2 rfl rfl⟩

/-- C7: on a registered event type, each emit operation hands the wire-name
to the transport and returns the transport's result to the caller as the
recoverable inner value — in particular a transport failure comes back as a
recoverable error, never as the fatal outer error. -/
theorem emit_transport_error_recoverable {α ε : Type} (reg : EventRegistry)
    (E : EventDescriptor) (meta : EventRegistryMeta) (self : α) (label : String)
    (handleEmit windowEmit : String → α → Except ε Unit)
    (handleEmitTo : String → String → α → Except ε Unit) (e : ε)
    (h : regGet reg E.SID = some meta) :
    (Event.emit_all E self handleEmit (some reg)).1
      = .ok (handleEmit (meta.wrap_with_plugin E.NAME) self) ∧
    (Event.emit_to E self label handleEmitTo (some reg)).1
      = .ok (handleEmitTo label (meta.wrap_with_plugin E.NAME) self) ∧
    (Event.emit E self windowEmit (some reg)).1
      = .ok (windowEmit (meta.wrap_with_plugin E.NAME) self) ∧
    (Event.emit_all E self (fun _ _ => (Except.error e : Except ε Unit)) (some reg)).1
      = .ok (.error e) ∧
    (Event.emit_to E self label (fun _ _ _ => (Except.error e : Except ε Unit)) (some reg)).1
      = .ok (.error e) ∧
    (Event.emit E self (fun _ _ => (Except.error e : Except ε Unit)) (some reg)).1
      = .ok (.error e) := by
  refine ⟨?_, ?_, ?_, ?_, ?_, ?_⟩ <;>
    simp [Event.emit_all, Event.emit_to, Event.emit, get_meta_found reg E.SID E.NAME meta h]

/-- C7 witness: emitting the registered event (id 0, name "demo") through a
transport that always fails with error 42 returns the failure as a
recoverable result. -/
theorem emit_transport_error_recoverable_witness :
    (Event.emit_all ⟨0, "demo"⟩ (0 : Nat)
        (fun _ _ => (Except.error 42 : Except Nat Unit))
        (some [(0, ⟨some "p"⟩)])).1
      = .ok (.error 42) :=
  (emit_transport_error_recoverable [(0, ⟨some "p"⟩)] ⟨0, "demo"⟩ ⟨some "p"⟩ (0 : Nat) ""
    (fun _ _ => (Except.error 42 : Except Nat Unit))
    (fun _ _ => (Except.error 42 : Except Nat Unit))
    (fun _ _ _ => (Except.error 42 : Except Nat Unit)) 42 rfl).2.2.2.1

/-- C8: every dispatch operation returns the managed registry state
unchanged (dispatch only reads it), and the only mutating operation —
`EventRegistry.register_collection` — never removes a key: every key
present before the merge is still present after it. -/
theorem dispatch_readonly_merge_grows {α β ε : Type} (st : Option EventRegistry)
    (E : EventDescriptor) (self : α) (label : String)
    (handleEmit windowEmit : String → α → Except ε Unit)
    (handleEmitTo : String → String → α → Except ε Unit)
    (handler : TypedEvent α → β)
    (from_value : JValue → Except String α) (from_str : String → Option JValue)
    (handleListenAny windowListen : String → (RawEvent → Except String β) → EventId)
    (handleOnceAny windowOnce : String → (RawEvent → Except String β) → Unit)
    (r : EventRegistry) (c : EventCollection) (p : PluginName) :
    (Event.emit_all E self handleEmit st).2 = st ∧
    (Event.emit_to E self label handleEmitTo st).2 = st ∧
    (Event.emit E self windowEmit st).2 = st ∧
    (Event.listen_any E handler from_value from_str handleListenAny st).2 = st ∧
    (Event.listen E handler from_value from_str windowListen st).2 = st ∧
    (Event.once_any E handler from_value from_str handleOnceAny st).2 = st ∧
    (Event.once E handler from_value from_str windowOnce st).2 = st ∧
    regKeys r ⊆ regKeys (EventRegistry.register_collection r c p) := by
  refine ⟨?_, ?_, ?_, ?_, ?_, ?_, ?_, regKeys_subset_foldl c.sids r p⟩ <;>
    cases h : get_meta_from_registry E.SID E.NAME st <;>
      simp [Event.emit_all, Event.emit_to, Event.emit, Event.listen_any, Event.listen,
        Event.once_any, Event.once, h]

/-- C10: dispatching before any registry state exists aborts with the
missing-registry diagnostic on every operation, and that diagnostic is
distinct from the per-event not-found diagnostic, whatever the event's
name. -/
theorem missing_registry_distinct_diagnostic {α β ε : Type} (E : EventDescriptor)
    (self : α) (label : String)
    (handleEmit windowEmit : String → α → Except ε Unit)
    (handleEmitTo : String → String → α → Except ε Unit)
    (handler : TypedEvent α → β)
    (from_value : JValue → Except String α) (from_str : String → Option JValue)
    (handleListenAny windowListen : String → (RawEvent → Except String β) → EventId)
    (handleOnceAny windowOnce : String → (RawEvent → Except String β) → Unit)
    (name : String) :
    (Event.emit_all E self handleEmit none).1 = .error missingRegistryMsg ∧
    (Event.emit_to E self label handleEmitTo none).1 = .error missingRegistryMsg ∧
    (Event.emit E self windowEmit none).1 = .error missingRegistryMsg ∧
    (Event.listen_any E handler from_value from_str handleListenAny none).1
      = .error missingRegistryMsg ∧
    (Event.listen E handler from_value from_str windowListen none).1
      = .error missingRegistryMsg ∧
    (Event.once_any E handler from_value from_str handleOnceAny none).1
      = .error missingRegistryMsg ∧
    (Event.once E handler from_value from_str windowOnce none).1
      = .error missingRegistryMsg ∧
    missingRegistryMsg ≠ eventNotFoundMsg name :=
  ⟨rfl, rfl, rfl, rfl, rfl, rfl, rfl, missing_ne_eventNotFound name⟩
